import Mathlib

/-!
Verification development for the ClaudeBot dashboard.

Shallow embedding of the access-control layer (src/dashboard/src/lib/discord.ts),
the configuration store and stats reader (src/dashboard/src/lib/config.server.ts),
and the guild-scoped HTTP endpoints
(src/dashboard/src/app/api/guilds/[guildId]/{config,commands,prompt}/route.ts).

Modelling conventions:
- Upstream HTTP fetches are modelled by an explicit `FetchResult` input: a fetch
  either rejects at the network level, resolves with a non-OK status, or resolves
  OK with a parsed payload.
- JSON numbers are modelled as rationals, JSON strings as `String`, absent JSON
  fields as `Option`.
- The file system is explicit state: a map from guild id to file content
  (missing, unparseable, or a parsed record) plus a flag saying whether writes
  fail; fallible operations return `Except`.
- Wall-clock timestamps (`new Date().toISOString()`) are modelled as a `now : Nat`
  parameter threaded into each operation.
- `String.prototype.localeCompare` and `String.prototype.trim` are modelled by
  executable code-point comparison and whitespace trimming defined below.
-/

/-! ## Discord permission layer (src/dashboard/src/lib/discord.ts) -/

/-- Discord permission flag MANAGE_GUILD = 0x20. -/
def MANAGE_GUILD : Nat := 0x20

/-- Discord permission flag ADMINISTRATOR = 0x8. -/
def ADMINISTRATOR : Nat := 0x8

/-- A guild as returned by the Discord user-guilds endpoint: `DiscordGuild`
in discord.ts (the numeric-string `permissions` is modelled already parsed). -/
structure DiscordGuild where
  id : String
  name : String
  icon : Option String
  owner : Bool
  permissions : Nat
deriving DecidableEq, Repr

/-- Projection of a guild the user can manage: `ManageableGuild` in discord.ts. -/
structure ManageableGuild where
  id : String
  name : String
  icon : Option String
  hasBot : Bool
deriving DecidableEq, Repr

/-- A guild object from the bot-identity guilds endpoint; only `id` is consumed. -/
structure BotGuild where
  id : String
deriving DecidableEq, Repr

/-- Outcome of one upstream HTTP fetch: network rejection, non-OK HTTP status,
or OK with a parsed payload. -/
inductive FetchResult (α : Type) where
  | netError
  | httpError (status : Nat)
  | ok (val : α)
deriving DecidableEq, Repr

/-- `canManageGuild` (discord.ts lines 41-48): owner, or ADMINISTRATOR bit set,
or MANAGE_GUILD bit set in the permission bitmask. -/
def canManageGuild (guild : DiscordGuild) : Bool :=
  guild.owner ||
    (guild.permissions &&& ADMINISTRATOR == ADMINISTRATOR) ||
    (guild.permissions &&& MANAGE_GUILD == MANAGE_GUILD)

/-- `getUserGuilds` (discord.ts lines 23-36): a network rejection propagates,
a non-OK status throws `Failed to fetch guilds: <status>`, otherwise the
parsed guild list is returned. -/
def getUserGuilds (resp : FetchResult (List DiscordGuild)) :
    Except String (List DiscordGuild) :=
  match resp with
  | .netError => .error "fetch rejected"
  | .httpError status => .error ("Failed to fetch guilds: " ++ toString status)
  | .ok guilds => .ok guilds

/-- `getBotGuilds` (discord.ts lines 53-80): a missing bot token, a network
rejection, and a non-OK status all yield the empty list (errors are caught and
logged, never rethrown); otherwise the fetched guild objects are mapped to ids. -/
def getBotGuilds (botToken : Option String) (resp : FetchResult (List BotGuild)) :
    List String :=
  match botToken with
  | none => []
  | some _ =>
    match resp with
    | .netError => []
    | .httpError _ => []
    | .ok guilds => guilds.map (fun g => g.id)

/-- Code-point comparison of character lists; models the ascending order
induced by `a.name.localeCompare(b.name)` in the guild sort. -/
def charListLe : List Char → List Char → Bool
  | [], _ => true
  | _ :: _, [] => false
  | a :: as, b :: bs =>
    if a.toNat < b.toNat then true
    else if b.toNat < a.toNat then false
    else charListLe as bs

/-- String comparison used by the guild sort comparator. -/
def strLe (a b : String) : Bool :=
  charListLe a.data b.data

/-- The sort comparator of `getManageableGuilds` (discord.ts lines 101-106) as a
"less-or-equal" test: guilds with the bot first, then by name. `mgLEb a b` holds
exactly when the JS comparator returns a value ≤ 0 on `(a, b)`. -/
def mgLEb (a b : ManageableGuild) : Bool :=
  if a.hasBot && !b.hasBot then true
  else if !a.hasBot && b.hasBot then false
  else strLe a.name b.name

/-- `mgLEb` as a decidable relation, for the stable sort. -/
def mgRel (a b : ManageableGuild) : Prop :=
  mgLEb a b = true

instance : DecidableRel mgRel :=
  fun a b => inferInstanceAs (Decidable (mgLEb a b = true))

/-- `getManageableGuilds` (discord.ts lines 85-107): fetch user guilds and bot
guild ids in parallel (a user-guilds failure propagates; the bot fetch never
fails), filter by `canManageGuild`, tag each with `hasBot`, and stable-sort with
the comparator `mgLEb` (JS `Array.prototype.sort` is stable). -/
def getManageableGuilds (userFetch : FetchResult (List DiscordGuild))
    (botToken : Option String) (botFetch : FetchResult (List BotGuild)) :
    Except String (List ManageableGuild) :=
  match getUserGuilds userFetch with
  | .error e => .error e
  | .ok userGuilds =>
    let botGuildIds := getBotGuilds botToken botFetch
    .ok ((((userGuilds.filter canManageGuild).map (fun guild =>
        { id := guild.id, name := guild.name, icon := guild.icon,
          hasBot := botGuildIds.contains guild.id : ManageableGuild }))).insertionSort mgRel)

/-- Result object of the route-level `verifyAccess` helpers:
`{ authorized: boolean; guildName?: string }`. -/
structure AccessCheck where
  authorized : Bool
  guildName : Option String
deriving DecidableEq, Repr

/-- `verifyAccess` (config/route.ts lines 11-20, identical in commands/route.ts
and prompt/route.ts): look the requested guild up in the manageable list; absent
or without the bot means not authorized, otherwise authorized with its name. -/
def verifyAccess (guildId : String) (userFetch : FetchResult (List DiscordGuild))
    (botToken : Option String) (botFetch : FetchResult (List BotGuild)) :
    Except String AccessCheck :=
  match getManageableGuilds userFetch botToken botFetch with
  | .error e => .error e
  | .ok guilds =>
    match guilds.find? (fun g => g.id == guildId) with
    | none => .ok { authorized := false, guildName := none }
    | some guild =>
      if !guild.hasBot then .ok { authorized := false, guildName := none }
      else .ok { authorized := true, guildName := some guild.name }

/-! ## Configuration store (src/dashboard/src/lib/config.server.ts) and its
data model (src/dashboard/src/lib/config.types.ts) -/

/-- `GuildSettings` (config.types.ts lines 51-61). -/
structure GuildSettings where
  maxTokensPerChannel : ℚ
  messageExpiryDays : ℚ
  charsPerTokenEstimate : ℚ
  maxResponseTokens : ℚ
  scoreThreshold : ℚ
  rateLimitSeconds : ℚ
  temperature : ℚ
  model : String
  skipCategories : List String
deriving DecidableEq, Repr

/-- `GuildCommands` (config.types.ts lines 63-69). -/
structure GuildCommands where
  beer : Bool
  ping : Bool
  uptime : Bool
  cacheStats : Bool
  clearCache : Bool
deriving DecidableEq, Repr

/-- `DEFAULT_SETTINGS` (config.types.ts lines 3-13). -/
def DEFAULT_SETTINGS : GuildSettings :=
  { maxTokensPerChannel := 150000
    messageExpiryDays := 30
    charsPerTokenEstimate := 4
    maxResponseTokens := 300
    scoreThreshold := 8
    rateLimitSeconds := 2
    temperature := 7/10
    model := "claude-sonnet-4-5-20250929"
    skipCategories := ["Information"] }

/-- `DEFAULT_COMMANDS` (config.types.ts lines 15-21). -/
def DEFAULT_COMMANDS : GuildCommands :=
  { beer := true, ping := true, uptime := true, cacheStats := true, clearCache := true }

/-- `GuildConfig` (config.types.ts lines 71-79); `updatedAt` timestamps are
modelled as naturals. -/
structure GuildConfig where
  guildId : String
  guildName : String
  settings : GuildSettings
  commands : GuildCommands
  systemPrompt : Option String
  updatedAt : Nat
  updatedBy : String
deriving DecidableEq, Repr

/-- `Partial<GuildSettings>`: each field optionally present. -/
structure SettingsPatch where
  maxTokensPerChannel : Option ℚ := none
  messageExpiryDays : Option ℚ := none
  charsPerTokenEstimate : Option ℚ := none
  maxResponseTokens : Option ℚ := none
  scoreThreshold : Option ℚ := none
  rateLimitSeconds : Option ℚ := none
  temperature : Option ℚ := none
  model : Option String := none
  skipCategories : Option (List String) := none
deriving DecidableEq, Repr

/-- `Partial<GuildCommands>`. -/
structure CommandsPatch where
  beer : Option Bool := none
  ping : Option Bool := none
  uptime : Option Bool := none
  cacheStats : Option Bool := none
  clearCache : Option Bool := none
deriving DecidableEq, Repr

/-- JS object spread `{ ...settings, ...patch }`: fields present in the patch
override, absent fields keep their prior value. -/
def mergeSettings (s : GuildSettings) (p : SettingsPatch) : GuildSettings :=
  { maxTokensPerChannel := p.maxTokensPerChannel.getD s.maxTokensPerChannel
    messageExpiryDays := p.messageExpiryDays.getD s.messageExpiryDays
    charsPerTokenEstimate := p.charsPerTokenEstimate.getD s.charsPerTokenEstimate
    maxResponseTokens := p.maxResponseTokens.getD s.maxResponseTokens
    scoreThreshold := p.scoreThreshold.getD s.scoreThreshold
    rateLimitSeconds := p.rateLimitSeconds.getD s.rateLimitSeconds
    temperature := p.temperature.getD s.temperature
    model := p.model.getD s.model
    skipCategories := p.skipCategories.getD s.skipCategories }

/-- JS object spread `{ ...commands, ...patch }`. -/
def mergeCommands (c : GuildCommands) (p : CommandsPatch) : GuildCommands :=
  { beer := p.beer.getD c.beer
    ping := p.ping.getD c.ping
    uptime := p.uptime.getD c.uptime
    cacheStats := p.cacheStats.getD c.cacheStats
    clearCache := p.clearCache.getD c.clearCache }

/-- Content of one JSON file on disk: missing, unparseable, or parsed. -/
inductive JsonFile (α : Type) where
  | missing
  | corrupt
  | valid (val : α)
deriving DecidableEq, Repr

/-- The file-system state seen by config.server.ts: one JSON file per guild id,
plus whether write operations fail (mkdir/writeFile throwing). -/
structure Store where
  files : String → JsonFile GuildConfig
  writeFails : Bool

/-- `getGuildConfig` (config.server.ts lines 31-42): read and parse the per-guild
file; a missing or unparseable file yields `null` (the catch-all handler). -/
def getGuildConfig (st : Store) (guildId : String) : Option GuildConfig :=
  match st.files guildId with
  | .valid config => some config
  | .missing => none
  | .corrupt => none

/-- `saveGuildConfig` (config.server.ts lines 47-57): whole-file overwrite at
the path derived from `config.guildId`; write failures throw. -/
def saveGuildConfig (st : Store) (config : GuildConfig) : Except Unit Store :=
  if st.writeFails then .error ()
  else .ok { st with
    files := fun id => if id == config.guildId then .valid config else st.files id }

/-- `getOrCreateGuildConfig` (config.server.ts lines 62-82): return the existing
record if the file parses; otherwise synthesize the default record, persist it,
and return it. -/
def getOrCreateGuildConfig (st : Store) (guildId guildName : String) (now : Nat) :
    Except Unit (GuildConfig × Store) :=
  match getGuildConfig st guildId with
  | some existing => .ok (existing, st)
  | none =>
    let newConfig : GuildConfig :=
      { guildId := guildId
        guildName := guildName
        settings := DEFAULT_SETTINGS
        commands := DEFAULT_COMMANDS
        systemPrompt := none
        updatedAt := now
        updatedBy := "system" }
    match saveGuildConfig st newConfig with
    | .error e => .error e
    | .ok st' => .ok (newConfig, st')

/-- `updateGuildSettings` (config.server.ts lines 87-101): load-or-create,
shallow-merge the patch into `settings`, stamp `updatedAt`/`updatedBy`, persist,
return the updated record. -/
def updateGuildSettings (st : Store) (guildId guildName : String)
    (settings : SettingsPatch) (updatedBy : String) (now : Nat) :
    Except Unit (GuildConfig × Store) :=
  match getOrCreateGuildConfig st guildId guildName now with
  | .error e => .error e
  | .ok (config, st₁) =>
    let config' := { config with
      settings := mergeSettings config.settings settings
      updatedAt := now
      updatedBy := updatedBy }
    match saveGuildConfig st₁ config' with
    | .error e => .error e
    | .ok st₂ => .ok (config', st₂)

/-- `updateGuildCommands` (config.server.ts lines 106-120). -/
def updateGuildCommands (st : Store) (guildId guildName : String)
    (commands : CommandsPatch) (updatedBy : String) (now : Nat) :
    Except Unit (GuildConfig × Store) :=
  match getOrCreateGuildConfig st guildId guildName now with
  | .error e => .error e
  | .ok (config, st₁) =>
    let config' := { config with
      commands := mergeCommands config.commands commands
      updatedAt := now
      updatedBy := updatedBy }
    match saveGuildConfig st₁ config' with
    | .error e => .error e
    | .ok st₂ => .ok (config', st₂)

/-- `updateGuildPrompt` (config.server.ts lines 125-139): replace the prompt
wholesale, stamp, persist. -/
def updateGuildPrompt (st : Store) (guildId guildName : String)
    (systemPrompt : Option String) (updatedBy : String) (now : Nat) :
    Except Unit (GuildConfig × Store) :=
  match getOrCreateGuildConfig st guildId guildName now with
  | .error e => .error e
  | .ok (config, st₁) =>
    let config' := { config with
      systemPrompt := systemPrompt
      updatedAt := now
      updatedBy := updatedBy }
    match saveGuildConfig st₁ config' with
    | .error e => .error e
    | .ok st₂ => .ok (config', st₂)

/-! ## Stats reader (config.server.ts lines 144-180) -/

/-- Per-guild slice of the stats artifact written by the external bot process; every field may
be absent in the parsed JSON. -/
structure RawGuildStats where
  messagesCached : Option ℚ
  tokensUsed : Option ℚ
  lastActivity : Option String
deriving DecidableEq, Repr

/-- The parsed shared stats artifact (`BotStats` in config.types.ts); every
field consumed defensively by the reader may be absent. -/
structure RawBotStats where
  uptime : Option String
  latency : Option ℚ
  guilds : Option (List (String × RawGuildStats))
deriving DecidableEq, Repr

/-- `getBotStats` (config.server.ts lines 144-153): read and parse the shared
artifact; absent or unparseable yields `null`. -/
def getBotStats (artifact : JsonFile RawBotStats) : Option RawBotStats :=
  match artifact with
  | .valid stats => some stats
  | .missing => none
  | .corrupt => none

/-- The projection returned by `getGuildStats`. -/
structure GuildStatsView where
  messagesCached : ℚ
  tokensUsed : ℚ
  lastActivity : String
  botUptime : String
  botLatency : ℚ
deriving DecidableEq, Repr

/-- `getGuildStats` (config.server.ts lines 158-180): `null` when the artifact
is absent/unparseable; otherwise project the per-guild entry (`stats.guilds?.[id]`)
with `?? 0` / `?? "Never"` defaults, and the top-level uptime/latency with
`?? "Unknown"` / `?? 0` defaults. -/
def getGuildStats (artifact : JsonFile RawBotStats) (guildId : String) :
    Option GuildStatsView :=
  match getBotStats artifact with
  | none => none
  | some stats =>
    let guildStats := stats.guilds.bind (fun gs => gs.lookup guildId)
    some
      { messagesCached := (guildStats.bind (fun g => g.messagesCached)).getD 0
        tokensUsed := (guildStats.bind (fun g => g.tokensUsed)).getD 0
        lastActivity := (guildStats.bind (fun g => g.lastActivity)).getD "Never"
        botUptime := stats.uptime.getD "Unknown"
        botLatency := stats.latency.getD 0 }

/-! ## Guild-scoped endpoint handlers
(src/dashboard/src/app/api/guilds/[guildId]/{config,commands,prompt}/route.ts) -/

/-- The authenticated session visible to a handler: `session.accessToken` and
`session.user.id`. -/
structure Session where
  accessToken : String
  userId : String
deriving DecidableEq, Repr

/-- Outcome of one handler invocation. `unauthorized` = 401, `forbidden` = 403,
`serverError` = the 500 produced in the catch block of the handler, `thrown` = an
exception escaping the handler (surfaced by the framework as a generic error),
`ok` = 200 with the given JSON body. -/
inductive HandlerResult (α : Type) where
  | unauthorized
  | forbidden
  | serverError
  | thrown
  | ok (body : α)
deriving DecidableEq, Repr

/-- JS `s.trim()` on the character-list model: drop leading whitespace, then
drop trailing whitespace. -/
def trimList (l : List Char) : List Char :=
  ((l.dropWhile Char.isWhitespace).reverse.dropWhile Char.isWhitespace).reverse

/-- JS `String.prototype.trim`. -/
def jsTrim (s : String) : String :=
  ⟨trimList s.data⟩

/-- `body.systemPrompt?.trim() || null` (prompt/route.ts line 64): a missing
prompt stays null, and a prompt that trims to the empty string (falsy) becomes
null, otherwise the trimmed prompt is kept. -/
def normalizePrompt (p : Option String) : Option String :=
  match p with
  | none => none
  | some s =>
    let t := jsTrim s
    if t == "" then none else some t

/-- Response body of the prompt PUT endpoint:
`{ systemPrompt, isCustom: config.systemPrompt !== null }`. -/
structure PromptView where
  systemPrompt : Option String
  isCustom : Bool
deriving DecidableEq, Repr

/-- `PUT /api/guilds/[guildId]/config` (config/route.ts lines 44-70):
session check (401), access verification (403; an exception in it escapes the
handler), then in the try block: parse the body (a parse failure is caught as
500) and run `updateGuildSettings` (a store failure is caught as 500), replying
200 with the updated record. -/
def configPUT (session : Option Session) (guildId : String)
    (userFetch : FetchResult (List DiscordGuild)) (botToken : Option String)
    (botFetch : FetchResult (List BotGuild)) (body : Option SettingsPatch)
    (st : Store) (now : Nat) : HandlerResult GuildConfig × Store :=
  match session with
  | none => (.unauthorized, st)
  | some s =>
    match verifyAccess guildId userFetch botToken botFetch with
    | .error _ => (.thrown, st)
    | .ok access =>
      if !access.authorized then (.forbidden, st)
      else
        match body with
        | none => (.serverError, st)
        | some settings =>
          match updateGuildSettings st guildId (access.guildName.getD "")
              settings s.userId now with
          | .error _ => (.serverError, st)
          | .ok (config, st') => (.ok config, st')

/-- `PUT /api/guilds/[guildId]/commands` (commands/route.ts lines 43-69); the
200 body is `{ commands: config.commands }`. -/
def commandsPUT (session : Option Session) (guildId : String)
    (userFetch : FetchResult (List DiscordGuild)) (botToken : Option String)
    (botFetch : FetchResult (List BotGuild)) (body : Option CommandsPatch)
    (st : Store) (now : Nat) : HandlerResult GuildCommands × Store :=
  match session with
  | none => (.unauthorized, st)
  | some s =>
    match verifyAccess guildId userFetch botToken botFetch with
    | .error _ => (.thrown, st)
    | .ok access =>
      if !access.authorized then (.forbidden, st)
      else
        match body with
        | none => (.serverError, st)
        | some commands =>
          match updateGuildCommands st guildId (access.guildName.getD "")
              commands s.userId now with
          | .error _ => (.serverError, st)
          | .ok (config, st') => (.ok config.commands, st')

/-- Request body of the prompt PUT endpoint. -/
structure PromptBody where
  systemPrompt : Option String
deriving DecidableEq, Repr

/-- `PUT /api/guilds/[guildId]/prompt` (prompt/route.ts lines 48-80): like the
other PUT handlers, but the prompt value is normalized by
`body.systemPrompt?.trim() || null` before being stored, and the 200 body is
`{ systemPrompt, isCustom }`. -/
def promptPUT (session : Option Session) (guildId : String)
    (userFetch : FetchResult (List DiscordGuild)) (botToken : Option String)
    (botFetch : FetchResult (List BotGuild)) (body : Option PromptBody)
    (st : Store) (now : Nat) : HandlerResult PromptView × Store :=
  match session with
  | none => (.unauthorized, st)
  | some s =>
    match verifyAccess guildId userFetch botToken botFetch with
    | .error _ => (.thrown, st)
    | .ok access =>
      if !access.authorized then (.forbidden, st)
      else
        match body with
        | none => (.serverError, st)
        | some b =>
          let promptValue := normalizePrompt b.systemPrompt
          match updateGuildPrompt st guildId (access.guildName.getD "")
              promptValue s.userId now with
          | .error _ => (.serverError, st)
          | .ok (config, st') =>
            (.ok { systemPrompt := config.systemPrompt,
                   isCustom := config.systemPrompt.isSome }, st')

/-! ## Theorems: configuration store -/

/-- Claim C4: for every community identifier with no existing (or an
unparseable) configuration file, `getOrCreateGuildConfig` synthesizes, persists,
and returns the default record (`guildId`/`guildName` from the arguments,
default settings and commands, null prompt, actor "system", timestamp now);
parse failures are treated identically to absence and never surface as an
error. -/
theorem getOrCreate_creates_defaults (st : Store) (guildId guildName : String)
    (now : Nat)
    (habs : st.files guildId = .missing ∨ st.files guildId = .corrupt)
    (hw : st.writeFails = false) :
    ∃ st', getOrCreateGuildConfig st guildId guildName now =
        .ok ({ guildId := guildId, guildName := guildName,
               settings := DEFAULT_SETTINGS, commands := DEFAULT_COMMANDS,
               systemPrompt := none, updatedAt := now,
               updatedBy := "system" }, st') ∧
      st'.files guildId =
        .valid { guildId := guildId, guildName := guildName,
                 settings := DEFAULT_SETTINGS, commands := DEFAULT_COMMANDS,
                 systemPrompt := none, updatedAt := now,
                 updatedBy := "system" } := by
  have hread : getGuildConfig st guildId = none := by
    rcases habs with h | h <;> simp [getGuildConfig, h]
  simp only [getOrCreateGuildConfig, hread, saveGuildConfig, hw,
             Bool.false_eq_true, if_false]
  exact ⟨_, rfl, by simp⟩

/-- Claim C4 witness: community 42 with no configuration file. -/
theorem getOrCreate_creates_defaults_witness :
    ∃ st', getOrCreateGuildConfig ⟨fun _ => .missing, false⟩ "42" "Test Guild" 5 =
        .ok ({ guildId := "42", guildName := "Test Guild",
               settings := DEFAULT_SETTINGS, commands := DEFAULT_COMMANDS,
               systemPrompt := none, updatedAt := 5,
               updatedBy := "system" }, st') ∧
      st'.files "42" =
        .valid { guildId := "42", guildName := "Test Guild",
                 settings := DEFAULT_SETTINGS, commands := DEFAULT_COMMANDS,
                 systemPrompt := none, updatedAt := 5,
                 updatedBy := "system" } :=
  getOrCreate_creates_defaults ⟨fun _ => .missing, false⟩ "42" "Test Guild" 5
    (Or.inl rfl) rfl

/-- Claim C5: `getOrCreateGuildConfig` is idempotent: calling it twice in
succession with no intervening update returns identical records (the second
call returns exactly the record the first call created and persisted), and the
second call leaves the store untouched. -/
theorem getOrCreate_idempotent (st : Store) (guildId guildName : String)
    (t₁ t₂ : Nat) (hw : st.writeFails = false) :
    ∃ c st₁, getOrCreateGuildConfig st guildId guildName t₁ = .ok (c, st₁) ∧
      getOrCreateGuildConfig st₁ guildId guildName t₂ = .ok (c, st₁) := by
  cases h : st.files guildId with
  | valid c =>
    exact ⟨c, st, by simp [getOrCreateGuildConfig, getGuildConfig, h],
                  by simp [getOrCreateGuildConfig, getGuildConfig, h]⟩
  | missing =>
    have hread : getGuildConfig st guildId = none := by simp [getGuildConfig, h]
    simp only [getOrCreateGuildConfig, hread, saveGuildConfig, hw,
               Bool.false_eq_true, if_false]
    exact ⟨_, _, rfl, by simp [getGuildConfig]⟩
  | corrupt =>
    have hread : getGuildConfig st guildId = none := by simp [getGuildConfig, h]
    simp only [getOrCreateGuildConfig, hread, saveGuildConfig, hw,
               Bool.false_eq_true, if_false]
    exact ⟨_, _, rfl, by simp [getGuildConfig]⟩

/-- Claim C5 witness: concrete store with no file for community 42. -/
theorem getOrCreate_idempotent_witness :
    ∃ c st₁,
      getOrCreateGuildConfig ⟨fun _ => .missing, false⟩ "42" "Test Guild" 1 =
        .ok (c, st₁) ∧
      getOrCreateGuildConfig st₁ "42" "Test Guild" 2 = .ok (c, st₁) :=
  getOrCreate_idempotent ⟨fun _ => .missing, false⟩ "42" "Test Guild" 1 2 rfl

/-- Claim C6: for every existing configuration record and every settings patch,
`updateGuildSettings` changes only the settings fields named in the patch:
every settings field not named retains its prior value, `commands` and
`systemPrompt` are unchanged, `updatedAt` strictly increases (given a strictly
advanced clock), and `updatedBy` becomes the supplied actor. -/
theorem updateGuildSettings_frame (st : Store) (guildId guildName : String)
    (c : GuildConfig) (p : SettingsPatch) (actor : String) (now : Nat)
    (hc : st.files guildId = .valid c) (hw : st.writeFails = false)
    (ht : c.updatedAt < now) :
    ∃ c' st', updateGuildSettings st guildId guildName p actor now = .ok (c', st') ∧
      (p.maxTokensPerChannel = none →
        c'.settings.maxTokensPerChannel = c.settings.maxTokensPerChannel) ∧
      (p.messageExpiryDays = none →
        c'.settings.messageExpiryDays = c.settings.messageExpiryDays) ∧
      (p.charsPerTokenEstimate = none →
        c'.settings.charsPerTokenEstimate = c.settings.charsPerTokenEstimate) ∧
      (p.maxResponseTokens = none →
        c'.settings.maxResponseTokens = c.settings.maxResponseTokens) ∧
      (p.scoreThreshold = none →
        c'.settings.scoreThreshold = c.settings.scoreThreshold) ∧
      (p.rateLimitSeconds = none →
        c'.settings.rateLimitSeconds = c.settings.rateLimitSeconds) ∧
      (p.temperature = none → c'.settings.temperature = c.settings.temperature) ∧
      (p.model = none → c'.settings.model = c.settings.model) ∧
      (p.skipCategories = none →
        c'.settings.skipCategories = c.settings.skipCategories) ∧
      (∀ v, p.maxTokensPerChannel = some v →
        c'.settings.maxTokensPerChannel = v) ∧
      (∀ v, p.temperature = some v → c'.settings.temperature = v) ∧
      c'.commands = c.commands ∧
      c'.systemPrompt = c.systemPrompt ∧
      c.updatedAt < c'.updatedAt ∧
      c'.updatedBy = actor := by
  have hread : getGuildConfig st guildId = some c := by simp [getGuildConfig, hc]
  simp only [updateGuildSettings, getOrCreateGuildConfig, hread, saveGuildConfig,
             hw, Bool.false_eq_true, if_false]
  refine ⟨_, _, rfl, ?_, ?_, ?_, ?_, ?_, ?_, ?_, ?_, ?_, ?_, ?_, rfl, rfl, ht, rfl⟩ <;>
    first
      | (intro h; simp [mergeSettings, h])
      | (intro v h; simp [mergeSettings, h])

/-- Claim C6 witness: a concrete record and a patch naming only `temperature`. -/
theorem updateGuildSettings_frame_witness :
    ∃ c' st',
      updateGuildSettings
        ⟨fun _ => .valid
          { guildId := "7", guildName := "G", settings := DEFAULT_SETTINGS,
            commands := DEFAULT_COMMANDS, systemPrompt := none, updatedAt := 3,
            updatedBy := "system" }, false⟩
        "7" "G" { temperature := some (1/2) } "alice" 9 = .ok (c', st') ∧
      (({ temperature := some (1/2) } : SettingsPatch).maxTokensPerChannel = none →
        c'.settings.maxTokensPerChannel = DEFAULT_SETTINGS.maxTokensPerChannel) ∧
      (({ temperature := some (1/2) } : SettingsPatch).messageExpiryDays = none →
        c'.settings.messageExpiryDays = DEFAULT_SETTINGS.messageExpiryDays) ∧
      (({ temperature := some (1/2) } : SettingsPatch).charsPerTokenEstimate = none →
        c'.settings.charsPerTokenEstimate = DEFAULT_SETTINGS.charsPerTokenEstimate) ∧
      (({ temperature := some (1/2) } : SettingsPatch).maxResponseTokens = none →
        c'.settings.maxResponseTokens = DEFAULT_SETTINGS.maxResponseTokens) ∧
      (({ temperature := some (1/2) } : SettingsPatch).scoreThreshold = none →
        c'.settings.scoreThreshold = DEFAULT_SETTINGS.scoreThreshold) ∧
      (({ temperature := some (1/2) } : SettingsPatch).rateLimitSeconds = none →
        c'.settings.rateLimitSeconds = DEFAULT_SETTINGS.rateLimitSeconds) ∧
      (({ temperature := some (1/2) } : SettingsPatch).temperature = none →
        c'.settings.temperature = DEFAULT_SETTINGS.temperature) ∧
      (({ temperature := some (1/2) } : SettingsPatch).model = none →
        c'.settings.model = DEFAULT_SETTINGS.model) ∧
      (({ temperature := some (1/2) } : SettingsPatch).skipCategories = none →
        c'.settings.skipCategories = DEFAULT_SETTINGS.skipCategories) ∧
      (∀ v, ({ temperature := some (1/2) } : SettingsPatch).maxTokensPerChannel = some v →
        c'.settings.maxTokensPerChannel = v) ∧
      (∀ v, ({ temperature := some (1/2) } : SettingsPatch).temperature = some v →
        c'.settings.temperature = v) ∧
      c'.commands = DEFAULT_COMMANDS ∧
      c'.systemPrompt = none ∧
      3 < c'.updatedAt ∧
      c'.updatedBy = "alice" :=
  updateGuildSettings_frame _ "7" "G"
    { guildId := "7", guildName := "G", settings := DEFAULT_SETTINGS,
      commands := DEFAULT_COMMANDS, systemPrompt := none, updatedAt := 3,
      updatedBy := "system" }
    { temperature := some (1/2) } "alice" 9 rfl rfl (by decide)

/-- Claim C10: once a configuration record exists, `guildId` and `guildName`
never change: `getOrCreateGuildConfig` with a different display name returns
the existing record (and store) unchanged, and the three update operations
preserve `guildId` and `guildName` even when passed a different name. -/
theorem config_identity_immutable (st : Store) (guildId : String)
    (c : GuildConfig) (otherName : String) (sp : SettingsPatch)
    (cp : CommandsPatch) (pv : Option String) (actor : String) (now : Nat)
    (hc : st.files guildId = .valid c) (hw : st.writeFails = false) :
    getOrCreateGuildConfig st guildId otherName now = .ok (c, st) ∧
    (∃ c₁ st₁, updateGuildSettings st guildId otherName sp actor now = .ok (c₁, st₁) ∧
      c₁.guildId = c.guildId ∧ c₁.guildName = c.guildName) ∧
    (∃ c₂ st₂, updateGuildCommands st guildId otherName cp actor now = .ok (c₂, st₂) ∧
      c₂.guildId = c.guildId ∧ c₂.guildName = c.guildName) ∧
    (∃ c₃ st₃, updateGuildPrompt st guildId otherName pv actor now = .ok (c₃, st₃) ∧
      c₃.guildId = c.guildId ∧ c₃.guildName = c.guildName) := by
  have hread : getGuildConfig st guildId = some c := by simp [getGuildConfig, hc]
  refine ⟨by simp [getOrCreateGuildConfig, hread], ?_, ?_, ?_⟩ <;>
  · simp only [updateGuildSettings, updateGuildCommands, updateGuildPrompt,
               getOrCreateGuildConfig, hread, saveGuildConfig, hw,
               Bool.false_eq_true, if_false]
    exact ⟨_, _, rfl, rfl, rfl⟩

/-- Claim C10 witness: existing record for community 7, updates passed a
different display name. -/
theorem config_identity_immutable_witness :
    getOrCreateGuildConfig
        ⟨fun _ => .valid
          { guildId := "7", guildName := "Old Name", settings := DEFAULT_SETTINGS,
            commands := DEFAULT_COMMANDS, systemPrompt := none, updatedAt := 3,
            updatedBy := "system" }, false⟩
        "7" "New Name" 9 =
      .ok ({ guildId := "7", guildName := "Old Name", settings := DEFAULT_SETTINGS,
             commands := DEFAULT_COMMANDS, systemPrompt := none, updatedAt := 3,
             updatedBy := "system" },
           ⟨fun _ => .valid
             { guildId := "7", guildName := "Old Name", settings := DEFAULT_SETTINGS,
               commands := DEFAULT_COMMANDS, systemPrompt := none, updatedAt := 3,
               updatedBy := "system" }, false⟩) ∧
    (∃ c₁ st₁, updateGuildSettings
        ⟨fun _ => .valid
          { guildId := "7", guildName := "Old Name", settings := DEFAULT_SETTINGS,
            commands := DEFAULT_COMMANDS, systemPrompt := none, updatedAt := 3,
            updatedBy := "system" }, false⟩
        "7" "New Name" {} "alice" 9 = .ok (c₁, st₁) ∧
      c₁.guildId = "7" ∧ c₁.guildName = "Old Name") ∧
    (∃ c₂ st₂, updateGuildCommands
        ⟨fun _ => .valid
          { guildId := "7", guildName := "Old Name", settings := DEFAULT_SETTINGS,
            commands := DEFAULT_COMMANDS, systemPrompt := none, updatedAt := 3,
            updatedBy := "system" }, false⟩
        "7" "New Name" {} "alice" 9 = .ok (c₂, st₂) ∧
      c₂.guildId = "7" ∧ c₂.guildName = "Old Name") ∧
    (∃ c₃ st₃, updateGuildPrompt
        ⟨fun _ => .valid
          { guildId := "7", guildName := "Old Name", settings := DEFAULT_SETTINGS,
            commands := DEFAULT_COMMANDS, systemPrompt := none, updatedAt := 3,
            updatedBy := "system" }, false⟩
        "7" "New Name" (some "be nice") "alice" 9 = .ok (c₃, st₃) ∧
      c₃.guildId = "7" ∧ c₃.guildName = "Old Name") :=
  config_identity_immutable _ "7"
    { guildId := "7", guildName := "Old Name", settings := DEFAULT_SETTINGS,
      commands := DEFAULT_COMMANDS, systemPrompt := none, updatedAt := 3,
      updatedBy := "system" }
    "New Name" {} {} (some "be nice") "alice" 9 rfl rfl

/-! ## Theorems: stats reader -/

/-- Claim C7: `getGuildStats` returns the distinct "no data" signal (`none`)
exactly when the shared stats artifact is absent or unparseable; when the
artifact exists but holds no entry for the requested community, it returns
zeroed per-community counters (0 messages, 0 tokens, "Never") with the
bot-level uptime and latency still populated from the top level. -/
theorem getGuildStats_noData (artifact : JsonFile RawBotStats)
    (stats : RawBotStats) (guildId guildId₂ : String) (u : String) (lat : ℚ)
    (hentry : stats.guilds.bind (fun gs => gs.lookup guildId₂) = none)
    (hu : stats.uptime = some u) (hlat : stats.latency = some lat) :
    (getGuildStats artifact guildId = none ↔
      artifact = .missing ∨ artifact = .corrupt) ∧
    getGuildStats (.valid stats) guildId₂ =
      some { messagesCached := 0, tokensUsed := 0, lastActivity := "Never",
             botUptime := u, botLatency := lat } := by
  constructor
  · cases artifact <;> simp [getGuildStats, getBotStats]
  · simp [getGuildStats, getBotStats, hentry, hu, hlat]

/-- Claim C7 witness: an artifact with an entry only for guild 1, queried for
guild 2, and a missing artifact queried directly. -/
theorem getGuildStats_noData_witness :
    (getGuildStats (.missing) "2" = none ↔
      (JsonFile.missing : JsonFile RawBotStats) = .missing ∨
        (JsonFile.missing : JsonFile RawBotStats) = .corrupt) ∧
    getGuildStats
      (.valid { uptime := some "2d", latency := some 42,
                guilds := some [("1", { messagesCached := some 5,
                                        tokensUsed := some 100,
                                        lastActivity := some "today" })] }) "2" =
      some { messagesCached := 0, tokensUsed := 0, lastActivity := "Never",
             botUptime := "2d", botLatency := 42 } :=
  getGuildStats_noData .missing
    { uptime := some "2d", latency := some 42,
      guilds := some [("1", { messagesCached := some 5, tokensUsed := some 100,
                              lastActivity := some "today" })] }
    "2" "2" "2d" 42 (by decide) rfl rfl

/-! ## Theorems: prompt normalization -/

/-- Dropping a leading predicate twice is the same as dropping it once. -/
theorem dropWhile_twice {α : Type} (p : α → Bool) (l : List α) :
    (l.dropWhile p).dropWhile p = l.dropWhile p := by
  induction l with
  | nil => rfl
  | cons a l ih =>
    by_cases h : p a
    · simp [List.dropWhile_cons, h, ih]
    · simp [List.dropWhile_cons, h]

/-- `dropWhile` produces a suffix: some dropped front restores the list. -/
theorem exists_append_dropWhile {α : Type} (p : α → Bool) (l : List α) :
    ∃ t, t ++ l.dropWhile p = l := by
  induction l with
  | nil => exact ⟨[], rfl⟩
  | cons a l ih =>
    by_cases h : p a
    · obtain ⟨t, ht⟩ := ih
      exact ⟨a :: t, by simp [List.dropWhile_cons, h, ht]⟩
    · exact ⟨[], by simp [List.dropWhile_cons, h]⟩

/-- `dropWhile` never lengthens a list. -/
theorem dropWhile_length_le {α : Type} (p : α → Bool) (l : List α) :
    (l.dropWhile p).length ≤ l.length := by
  obtain ⟨t, ht⟩ := exists_append_dropWhile p l
  have h := congrArg List.length ht
  simp [List.length_append] at h
  omega

/-- A front segment of a list that `dropWhile` leaves unchanged is itself
left unchanged by `dropWhile`. -/
theorem dropWhile_eq_self_of_front {α : Type} (p : α → Bool) {x y : List α}
    (hx : x.dropWhile p = x) (hfront : ∃ r, y ++ r = x) :
    y.dropWhile p = y := by
  cases y with
  | nil => rfl
  | cons a t =>
    obtain ⟨r, hr⟩ := hfront
    by_cases h : p a
    · exfalso
      rw [← hr] at hx
      simp only [List.cons_append, List.dropWhile_cons, h, if_true] at hx
      have hl := congrArg List.length hx
      have hle := dropWhile_length_le p (t ++ r)
      simp [List.length_append] at hl hle
      omega
    · simp [List.dropWhile_cons, h]

/-- Trimming a character list twice is the same as trimming it once. -/
theorem trimList_idem (l : List Char) : trimList (trimList l) = trimList l := by
  have hm : (l.dropWhile Char.isWhitespace).dropWhile Char.isWhitespace
      = l.dropWhile Char.isWhitespace := dropWhile_twice _ l
  have hfront : ∃ r,
      ((l.dropWhile Char.isWhitespace).reverse.dropWhile
          Char.isWhitespace).reverse ++ r
        = l.dropWhile Char.isWhitespace := by
    obtain ⟨t, ht⟩ := exists_append_dropWhile Char.isWhitespace
      (l.dropWhile Char.isWhitespace).reverse
    refine ⟨t.reverse, ?_⟩
    have h := congrArg List.reverse ht
    simpa [List.reverse_append] using h
  have h1 := dropWhile_eq_self_of_front Char.isWhitespace hm hfront
  have h2 := dropWhile_twice Char.isWhitespace
    (l.dropWhile Char.isWhitespace).reverse
  unfold trimList
  rw [h1, List.reverse_reverse, h2]

/-- JS trim is idempotent. -/
theorem jsTrim_idem (s : String) : jsTrim (jsTrim s) = jsTrim s := by
  show String.mk (trimList (trimList s.data)) = String.mk (trimList s.data)
  exact congrArg String.mk (trimList_idem s.data)

/-- Under a working file system, `getOrCreateGuildConfig` always succeeds and
keeps the file system working. -/
theorem getOrCreateGuildConfig_ok (st : Store) (guildId guildName : String)
    (now : Nat) (hw : st.writeFails = false) :
    ∃ c st', getOrCreateGuildConfig st guildId guildName now = .ok (c, st') ∧
      st'.writeFails = false := by
  cases h : st.files guildId with
  | valid c =>
    exact ⟨c, st, by simp [getOrCreateGuildConfig, getGuildConfig, h], hw⟩
  | missing =>
    have hread : getGuildConfig st guildId = none := by simp [getGuildConfig, h]
    simp only [getOrCreateGuildConfig, hread, saveGuildConfig, hw,
               Bool.false_eq_true, if_false]
    exact ⟨_, _, rfl, rfl⟩
  | corrupt =>
    have hread : getGuildConfig st guildId = none := by simp [getGuildConfig, h]
    simp only [getOrCreateGuildConfig, hread, saveGuildConfig, hw,
               Bool.false_eq_true, if_false]
    exact ⟨_, _, rfl, rfl⟩

/-- Under a working file system, `updateGuildPrompt` succeeds, stores exactly
the supplied prompt value, and persists the record it returns. -/
theorem updateGuildPrompt_ok (st : Store) (guildId guildName : String)
    (pv : Option String) (actor : String) (now : Nat)
    (hw : st.writeFails = false) :
    ∃ c' st', updateGuildPrompt st guildId guildName pv actor now = .ok (c', st') ∧
      c'.systemPrompt = pv ∧ st'.files c'.guildId = .valid c' := by
  obtain ⟨c, st₁, h1, hw1⟩ := getOrCreateGuildConfig_ok st guildId guildName now hw
  simp only [updateGuildPrompt, h1, saveGuildConfig, hw1,
             Bool.false_eq_true, if_false]
  exact ⟨_, _, rfl, rfl, by simp⟩

/-- Claim C9: on every authorized prompt write, the stored `systemPrompt` is
the trimmed request-body prompt, with a missing, empty, or whitespace-only
prompt normalized to null (the response then reports `isCustom = false`); the
stored prompt is therefore never an empty or whitespace-only string. -/
theorem promptPUT_normalizes (s : Session) (guildId : String)
    (userFetch : FetchResult (List DiscordGuild)) (botToken : Option String)
    (botFetch : FetchResult (List BotGuild)) (pb : PromptBody) (st : Store)
    (now : Nat) (hw : st.writeFails = false) (acc : AccessCheck)
    (hacc : verifyAccess guildId userFetch botToken botFetch = .ok acc)
    (hauth : acc.authorized = true) :
    ∃ config st',
      promptPUT (some s) guildId userFetch botToken botFetch (some pb) st now =
        (.ok { systemPrompt := config.systemPrompt,
               isCustom := config.systemPrompt.isSome }, st') ∧
      config.systemPrompt = normalizePrompt pb.systemPrompt ∧
      st'.files config.guildId = .valid config ∧
      (∀ t, normalizePrompt pb.systemPrompt = some t → jsTrim t = t ∧ t ≠ "") ∧
      normalizePrompt none = none ∧
      (∀ s₀, jsTrim s₀ = "" → normalizePrompt (some s₀) = none) := by
  obtain ⟨c', st', hup, hsp, hfile⟩ := updateGuildPrompt_ok st guildId
    (acc.guildName.getD "") (normalizePrompt pb.systemPrompt) s.userId now hw
  refine ⟨c', st', ?_, hsp, ?_, ?_, rfl, ?_⟩
  · simp [promptPUT, hacc, hauth, hup]
  · rw [hfile]
  · intro t ht
    cases hb : pb.systemPrompt with
    | none => simp [normalizePrompt, hb] at ht
    | some s₀ =>
      simp only [normalizePrompt, hb] at ht
      by_cases he : jsTrim s₀ = ""
      · simp [he] at ht
      · simp [he] at ht
        rw [← ht]
        exact ⟨jsTrim_idem s₀, he⟩
  · intro s₀ h
    simp [normalizePrompt, h]

/-- Claim C9 witness: an authorized prompt write whose body is a prompt with
surrounding whitespace. -/
theorem promptPUT_normalizes_witness :
    ∃ config st',
      promptPUT (some ⟨"tok", "user1"⟩) "g1"
          (.ok [{ id := "g1", name := "A", icon := none, owner := true,
                  permissions := 0 }])
          (some "bot-token") (.ok [{ id := "g1" }])
          (some { systemPrompt := some "  be nice  " })
          ⟨fun _ => .missing, false⟩ 7 =
        (.ok { systemPrompt := config.systemPrompt,
               isCustom := config.systemPrompt.isSome }, st') ∧
      config.systemPrompt = normalizePrompt (some "  be nice  ") ∧
      st'.files config.guildId = .valid config ∧
      (∀ t, normalizePrompt (some "  be nice  ") = some t →
        jsTrim t = t ∧ t ≠ "") ∧
      normalizePrompt none = none ∧
      (∀ s₀, jsTrim s₀ = "" → normalizePrompt (some s₀) = none) :=
  promptPUT_normalizes ⟨"tok", "user1"⟩ "g1"
    (.ok [{ id := "g1", name := "A", icon := none, owner := true,
            permissions := 0 }])
    (some "bot-token") (.ok [{ id := "g1" }])
    { systemPrompt := some "  be nice  " }
    ⟨fun _ => .missing, false⟩ 7 rfl
    { authorized := true, guildName := some "A" } rfl rfl

/-! ## Theorems: access verification and guild listing -/

/-- `List.contains` agrees with membership on strings. -/
theorem contains_eq_mem (l : List String) (a : String) :
    l.contains a = true ↔ a ∈ l := by
  simp

/-- Code-point comparison is total. -/
theorem charListLe_total (l₁ l₂ : List Char) :
    charListLe l₁ l₂ = true ∨ charListLe l₂ l₁ = true := by
  induction l₁ generalizing l₂ with
  | nil => exact Or.inl rfl
  | cons a as ih =>
    cases l₂ with
    | nil => exact Or.inr rfl
    | cons b bs =>
      rcases Nat.lt_trichotomy a.toNat b.toNat with h | h | h
      · exact Or.inl (by simp [charListLe, h])
      · have h₁ : ¬ a.toNat < b.toNat := by omega
        have h₂ : ¬ b.toNat < a.toNat := by omega
        rcases ih bs with hr | hr
        · exact Or.inl (by simp [charListLe, h₁, h₂, hr])
        · exact Or.inr (by simp [charListLe, h₁, h₂, hr])
      · exact Or.inr (by simp [charListLe, h])

/-- Code-point comparison is transitive. -/
theorem charListLe_trans (l₁ l₂ l₃ : List Char)
    (h₁ : charListLe l₁ l₂ = true) (h₂ : charListLe l₂ l₃ = true) :
    charListLe l₁ l₃ = true := by
  induction l₁ generalizing l₂ l₃ with
  | nil => rfl
  | cons a as ih =>
    cases l₂ with
    | nil => simp [charListLe] at h₁
    | cons b bs =>
      cases l₃ with
      | nil => simp [charListLe] at h₂
      | cons c cs =>
        by_cases hab : a.toNat < b.toNat
        · by_cases hbc : b.toNat < c.toNat
          · have : a.toNat < c.toNat := by omega
            simp [charListLe, this]
          · by_cases hcb : c.toNat < b.toNat
            · simp [charListLe, hbc, hcb] at h₂
            · have : a.toNat < c.toNat := by omega
              simp [charListLe, this]
        · by_cases hba : b.toNat < a.toNat
          · simp [charListLe, hab, hba] at h₁
          · simp only [charListLe, hab, hba, if_false] at h₁
            by_cases hbc : b.toNat < c.toNat
            · have : a.toNat < c.toNat := by omega
              simp [charListLe, this]
            · by_cases hcb : c.toNat < b.toNat
              · simp [charListLe, hbc, hcb] at h₂
              · simp only [charListLe, hbc, hcb, if_false] at h₂
                have hac : ¬ a.toNat < c.toNat := by omega
                have hca : ¬ c.toNat < a.toNat := by omega
                simp only [charListLe, hac, hca, if_false]
                exact ih bs cs h₁ h₂

/-- The guild comparator is total. -/
theorem mgLEb_total (a b : ManageableGuild) :
    mgLEb a b = true ∨ mgLEb b a = true := by
  cases ha : a.hasBot <;> cases hb : b.hasBot <;>
    simp [mgLEb, ha, hb] <;>
    exact charListLe_total a.name.data b.name.data

/-- The guild comparator is transitive. -/
theorem mgLEb_trans (a b c : ManageableGuild)
    (h₁ : mgLEb a b = true) (h₂ : mgLEb b c = true) : mgLEb a c = true := by
  cases ha : a.hasBot <;> cases hb : b.hasBot <;> cases hc : c.hasBot <;>
    simp [mgLEb, strLe, ha, hb, hc] at h₁ h₂ ⊢ <;>
    exact charListLe_trans _ _ _ h₁ h₂

/-- Membership in the manageable-guild list: exactly the projections of the
guilds of the user that pass `canManageGuild`. -/
theorem mem_manageable (ugs : List DiscordGuild) (bids : List String)
    (mg : ManageableGuild) :
    mg ∈ ((ugs.filter canManageGuild).map (fun g =>
        { id := g.id, name := g.name, icon := g.icon,
          hasBot := bids.contains g.id : ManageableGuild })).insertionSort mgRel ↔
      ∃ g ∈ ugs, canManageGuild g = true ∧
        mg = { id := g.id, name := g.name, icon := g.icon,
               hasBot := bids.contains g.id } := by
  rw [(List.perm_insertionSort mgRel _).mem_iff]
  simp only [List.mem_map, List.mem_filter]
  constructor
  · rintro ⟨g, ⟨hg, hcan⟩, rfl⟩
    exact ⟨g, hg, hcan, rfl⟩
  · rintro ⟨g, hg, hcan, rfl⟩
    exact ⟨g, ⟨hg, hcan⟩, rfl⟩

/-- Claim C8: `getManageableGuilds` returns exactly those guilds of the user
for which `canManageGuild` holds, each tagged `hasBot` true iff the bot guild
set contains its identifier, ordered so that every guild with the bot precedes
every guild without it, and within each group in ascending name order. -/
theorem getManageableGuilds_spec (ugs : List DiscordGuild) (tok : Option String)
    (botFetch : FetchResult (List BotGuild)) :
    ∃ l, getManageableGuilds (.ok ugs) tok botFetch = .ok l ∧
      l.Perm ((ugs.filter canManageGuild).map (fun g =>
        { id := g.id, name := g.name, icon := g.icon,
          hasBot := (getBotGuilds tok botFetch).contains g.id })) ∧
      (∀ mg ∈ l, mg.hasBot = (getBotGuilds tok botFetch).contains mg.id) ∧
      l.Pairwise (fun a b => (b.hasBot = true → a.hasBot = true) ∧
        (a.hasBot = b.hasBot → strLe a.name b.name = true)) := by
  refine ⟨_, rfl, List.perm_insertionSort mgRel _, ?_, ?_⟩
  · intro mg hmg
    rw [mem_manageable] at hmg
    obtain ⟨g, _, _, rfl⟩ := hmg
    rfl
  · have htotal : IsTotal ManageableGuild mgRel := ⟨fun a b => mgLEb_total a b⟩
    have htrans : IsTrans ManageableGuild mgRel :=
      ⟨fun a b c => mgLEb_trans a b c⟩
    have hs := @List.sorted_insertionSort _ mgRel _ htotal htrans
      ((ugs.filter canManageGuild).map (fun g =>
        { id := g.id, name := g.name, icon := g.icon,
          hasBot := (getBotGuilds tok botFetch).contains g.id }))
    refine List.Pairwise.imp ?_ hs
    intro a b h
    cases ha : a.hasBot <;> cases hb : b.hasBot <;>
      simp [mgRel, mgLEb, strLe, ha, hb] at h ⊢ <;> exact h

/-- Claim C8 witness: two manageable guilds, the bot present only in the one
with the later name, plus one guild the caller cannot manage. -/
theorem getManageableGuilds_spec_witness :
    ∃ l, getManageableGuilds
        (.ok [{ id := "1", name := "Alpha", icon := none, owner := false,
                permissions := 0x20 },
              { id := "2", name := "Beta", icon := none, owner := false,
                permissions := 0x8 },
              { id := "3", name := "Gamma", icon := none, owner := false,
                permissions := 0 }])
        (some "tok") (.ok [{ id := "2" }]) = .ok l ∧
      l.Perm (([{ id := "1", name := "Alpha", icon := none, owner := false,
                  permissions := 0x20 },
                { id := "2", name := "Beta", icon := none, owner := false,
                  permissions := 0x8 },
                { id := "3", name := "Gamma", icon := none, owner := false,
                  permissions := 0 }].filter canManageGuild).map (fun g =>
        { id := g.id, name := g.name, icon := g.icon,
          hasBot := (getBotGuilds (some "tok")
            (.ok [{ id := "2" }])).contains g.id })) ∧
      (∀ mg ∈ l, mg.hasBot = (getBotGuilds (some "tok")
          (.ok [{ id := "2" }])).contains mg.id) ∧
      l.Pairwise (fun a b => (b.hasBot = true → a.hasBot = true) ∧
        (a.hasBot = b.hasBot → strLe a.name b.name = true)) :=
  getManageableGuilds_spec
    [{ id := "1", name := "Alpha", icon := none, owner := false,
       permissions := 0x20 },
     { id := "2", name := "Beta", icon := none, owner := false,
       permissions := 0x8 },
     { id := "3", name := "Gamma", icon := none, owner := false,
       permissions := 0 }]
    (some "tok") (.ok [{ id := "2" }])

/-- `canManageGuild` unfolded into the ownership / bitmask disjunction. -/
theorem canManageGuild_iff (g : DiscordGuild) :
    canManageGuild g = true ↔
      (g.owner = true ∨ g.permissions &&& ADMINISTRATOR = ADMINISTRATOR ∨
        g.permissions &&& MANAGE_GUILD = MANAGE_GUILD) := by
  simp [canManageGuild, Bool.or_eq_true, beq_iff_eq, or_assoc]

/-- Claim C1: access verification authorizes exactly when the bot is present in
the requested community and the caller owns it or holds the administrator (0x8)
or manage-guild (0x20) bit there; in particular, whenever the bot is absent the
caller is not authorized regardless of ownership or bitmask. -/
theorem verifyAccess_authorized_iff (guildId : String)
    (ugs : List DiscordGuild) (tok : String) (bgs : List BotGuild)
    (acc : AccessCheck)
    (hacc : verifyAccess guildId (.ok ugs) (some tok) (.ok bgs) = .ok acc) :
    (acc.authorized = true ↔
      (guildId ∈ bgs.map BotGuild.id ∧
        ∃ g ∈ ugs, g.id = guildId ∧
          (g.owner = true ∨
            g.permissions &&& ADMINISTRATOR = ADMINISTRATOR ∨
            g.permissions &&& MANAGE_GUILD = MANAGE_GUILD))) ∧
    (guildId ∉ bgs.map BotGuild.id → acc.authorized = false) := by
  have hred : verifyAccess guildId (.ok ugs) (some tok) (.ok bgs) =
      (match (((ugs.filter canManageGuild).map (fun g =>
          { id := g.id, name := g.name, icon := g.icon,
            hasBot := (bgs.map BotGuild.id).contains g.id :
              ManageableGuild })).insertionSort mgRel).find?
            (fun g => g.id == guildId) with
        | none => .ok { authorized := false, guildName := none }
        | some guild =>
          if !guild.hasBot then .ok { authorized := false, guildName := none }
          else .ok { authorized := true, guildName := some guild.name }) := rfl
  rw [hred] at hacc
  cases hfind : (((ugs.filter canManageGuild).map (fun g =>
      { id := g.id, name := g.name, icon := g.icon,
        hasBot := (bgs.map BotGuild.id).contains g.id :
          ManageableGuild })).insertionSort mgRel).find?
        (fun g => g.id == guildId) with
  | none =>
    rw [hfind] at hacc
    simp only [Except.ok.injEq] at hacc
    subst hacc
    refine ⟨?_, fun _ => rfl⟩
    simp only [Bool.false_eq_true, false_iff]
    rintro ⟨hbot, g, hg, hid, hperm⟩
    have hmem : (({ id := g.id, name := g.name, icon := g.icon,
                    hasBot := (bgs.map BotGuild.id).contains g.id } :
                  ManageableGuild)) ∈
        ((ugs.filter canManageGuild).map (fun g =>
          { id := g.id, name := g.name, icon := g.icon,
            hasBot := (bgs.map BotGuild.id).contains g.id :
              ManageableGuild })).insertionSort mgRel :=
      (mem_manageable ugs (bgs.map BotGuild.id) _).mpr
        ⟨g, hg, (canManageGuild_iff g).mpr hperm, rfl⟩
    have hnone := List.find?_eq_none.mp hfind _ hmem
    simp [hid] at hnone
  | some mg =>
    have hidmg : mg.id = guildId := by
      have hp := List.find?_some hfind
      exact eq_of_beq hp
    have hmem := List.mem_of_find?_eq_some hfind
    rw [mem_manageable] at hmem
    obtain ⟨g₀, hg₀, hcan₀, hmgeq⟩ := hmem
    have hhb : mg.hasBot = (bgs.map BotGuild.id).contains g₀.id := by
      rw [hmgeq]
    have hid₀ : g₀.id = guildId := by
      rw [hmgeq] at hidmg
      exact hidmg
    rw [hfind] at hacc
    cases hb : mg.hasBot with
    | false =>
      simp only [hb, Bool.not_false, if_true, Except.ok.injEq] at hacc
      subst hacc
      refine ⟨?_, fun _ => rfl⟩
      simp only [Bool.false_eq_true, false_iff]
      rintro ⟨hbot, -⟩
      have hcon : (bgs.map BotGuild.id).contains guildId = true :=
        (contains_eq_mem _ _).mpr hbot
      rw [hb, hid₀] at hhb
      rw [hcon] at hhb
      exact Bool.false_ne_true hhb
    | true =>
      simp only [hb, Bool.not_true, Bool.false_eq_true, if_false,
                 Except.ok.injEq] at hacc
      subst hacc
      have hcon : (bgs.map BotGuild.id).contains guildId = true := by
        rw [hb, hid₀] at hhb
        exact hhb.symm
      have hbot : guildId ∈ bgs.map BotGuild.id := (contains_eq_mem _ _).mp hcon
      constructor
      · simp only [true_iff]
        exact ⟨hbot, g₀, hg₀, hid₀, (canManageGuild_iff g₀).mp hcan₀⟩
      · intro hnot
        exact absurd hbot hnot

/-- Claim C1 witness: the bot and an administrator caller are both in guild 1;
the caller also administers guild 9 where the bot is absent. -/
theorem verifyAccess_authorized_iff_witness :
    ((({ authorized := true, guildName := some "A" } : AccessCheck).authorized
        = true ↔
      ("1" ∈ ([{ id := "1" }] : List BotGuild).map BotGuild.id ∧
        ∃ g ∈ [{ id := "1", name := "A", icon := none, owner := false,
                 permissions := 8 : DiscordGuild }], g.id = "1" ∧
          (g.owner = true ∨
            g.permissions &&& ADMINISTRATOR = ADMINISTRATOR ∨
            g.permissions &&& MANAGE_GUILD = MANAGE_GUILD))) ∧
      ("1" ∉ ([{ id := "1" }] : List BotGuild).map BotGuild.id →
        ({ authorized := true, guildName := some "A" } : AccessCheck).authorized
          = false)) ∧
    ((({ authorized := false, guildName := none } : AccessCheck).authorized
        = true ↔
      ("9" ∈ ([{ id := "1" }] : List BotGuild).map BotGuild.id ∧
        ∃ g ∈ [{ id := "9", name := "B", icon := none, owner := true,
                 permissions := 0 : DiscordGuild }], g.id = "9" ∧
          (g.owner = true ∨
            g.permissions &&& ADMINISTRATOR = ADMINISTRATOR ∨
            g.permissions &&& MANAGE_GUILD = MANAGE_GUILD))) ∧
      ("9" ∉ ([{ id := "1" }] : List BotGuild).map BotGuild.id →
        ({ authorized := false, guildName := none } : AccessCheck).authorized
          = false)) :=
  ⟨verifyAccess_authorized_iff "1"
      [{ id := "1", name := "A", icon := none, owner := false,
         permissions := 8 }] "tok" [{ id := "1" }]
      { authorized := true, guildName := some "A" } rfl,
    verifyAccess_authorized_iff "9"
      [{ id := "9", name := "B", icon := none, owner := true,
         permissions := 0 }] "tok" [{ id := "1" }]
      { authorized := false, guildName := none } rfl⟩

/-! ## Theorems: endpoint layer and upstream failure handling -/

/-- When the bot-guild id list is empty, access verification always reports not
authorized (every manageable guild is tagged `hasBot = false`). -/
theorem verifyAccess_no_bot (guildId : String) (ugs : List DiscordGuild)
    (tok : Option String) (bf : FetchResult (List BotGuild))
    (hbf : getBotGuilds tok bf = []) :
    verifyAccess guildId (.ok ugs) tok bf =
      .ok { authorized := false, guildName := none } := by
  have hred : verifyAccess guildId (.ok ugs) tok bf =
      (match (((ugs.filter canManageGuild).map (fun g =>
          { id := g.id, name := g.name, icon := g.icon,
            hasBot := (getBotGuilds tok bf).contains g.id :
              ManageableGuild })).insertionSort mgRel).find?
            (fun g => g.id == guildId) with
        | none => .ok { authorized := false, guildName := none }
        | some guild =>
          if !guild.hasBot then .ok { authorized := false, guildName := none }
          else .ok { authorized := true, guildName := some guild.name }) := rfl
  rw [hred]
  cases hfind : (((ugs.filter canManageGuild).map (fun g =>
      { id := g.id, name := g.name, icon := g.icon,
        hasBot := (getBotGuilds tok bf).contains g.id :
          ManageableGuild })).insertionSort mgRel).find?
        (fun g => g.id == guildId) with
  | none => simp [hfind]
  | some mg =>
    have hmem := List.mem_of_find?_eq_some hfind
    rw [mem_manageable] at hmem
    obtain ⟨g, -, -, hmg⟩ := hmem
    have hhb : mg.hasBot = false := by
      rw [hmg, hbf]
      rfl
    simp [hfind, hhb]

/-- Claim C2 counterexample: the caller owns guild g1 and the bot-guild query
fails with HTTP 500, yet the config PUT handler answers 403 Forbidden (not a
500-class failure), with authorization computed as if the bot were absent. -/
theorem botFailure_forbidden_counterexample :
    configPUT (some { accessToken := "tok", userId := "user1" }) "g1"
        (.ok [{ id := "g1", name := "Guild One", icon := none, owner := true,
                permissions := 0 }])
        (some "bot-token") (.httpError 500) (some {})
        ⟨fun _ => .missing, false⟩ 0 =
      (.forbidden, ⟨fun _ => .missing, false⟩) := rfl

/-- Claim C2 amended: failure of the caller guild-list query escapes the
handler (surfacing as the generic framework failure); failure of the bot
identity guild-list query is caught inside `getBotGuilds` and yields the
empty bot-guild set, so authorization is computed as if the bot were absent
from every guild and the caller receives 403 Forbidden. -/
theorem upstream_failure_handling (s : Session) (guildId : String)
    (tok : Option String) (botFetch : FetchResult (List BotGuild))
    (body : Option SettingsPatch) (st : Store) (now : Nat) :
    (configPUT (some s) guildId .netError tok botFetch body st now =
      (.thrown, st)) ∧
    (∀ k, configPUT (some s) guildId (.httpError k) tok botFetch body st now =
      (.thrown, st)) ∧
    (getBotGuilds tok .netError = [] ∧ ∀ k, getBotGuilds tok (.httpError k) = []) ∧
    (∀ ugs, configPUT (some s) guildId (.ok ugs) tok .netError body st now =
      (.forbidden, st)) ∧
    (∀ ugs k, configPUT (some s) guildId (.ok ugs) tok (.httpError k) body st now =
      (.forbidden, st)) := by
  refine ⟨rfl, fun k => rfl, ⟨by cases tok <;> rfl, fun k => by cases tok <;> rfl⟩,
          ?_, ?_⟩
  · intro ugs
    have h := verifyAccess_no_bot guildId ugs tok .netError (by cases tok <;> rfl)
    simp [configPUT, h]
  · intro ugs k
    have h := verifyAccess_no_bot guildId ugs tok (.httpError k)
      (by cases tok <;> rfl)
    simp [configPUT, h]

/-- Claim C2 amended witness: an owner caller, bot token present, bot query
failing over the network and with a status error. -/
theorem upstream_failure_handling_witness :
    (configPUT (some { accessToken := "tok", userId := "u" }) "g1" .netError
        (some "bt") (.ok []) (some {}) ⟨fun _ => .missing, false⟩ 0 =
      (.thrown, ⟨fun _ => .missing, false⟩)) ∧
    (∀ k, configPUT (some { accessToken := "tok", userId := "u" }) "g1"
        (.httpError k) (some "bt") (.ok []) (some {})
        ⟨fun _ => .missing, false⟩ 0 = (.thrown, ⟨fun _ => .missing, false⟩)) ∧
    (getBotGuilds (some "bt") .netError = [] ∧
      ∀ k, getBotGuilds (some "bt") (.httpError k) = []) ∧
    (∀ ugs, configPUT (some { accessToken := "tok", userId := "u" }) "g1"
        (.ok ugs) (some "bt") .netError (some {}) ⟨fun _ => .missing, false⟩ 0 =
      (.forbidden, ⟨fun _ => .missing, false⟩)) ∧
    (∀ ugs k, configPUT (some { accessToken := "tok", userId := "u" }) "g1"
        (.ok ugs) (some "bt") (.httpError k) (some {})
        ⟨fun _ => .missing, false⟩ 0 =
      (.forbidden, ⟨fun _ => .missing, false⟩)) :=
  upstream_failure_handling { accessToken := "tok", userId := "u" } "g1"
    (some "bt") (.ok []) (some {}) ⟨fun _ => .missing, false⟩ 0

/-- Under a working file system, `updateGuildSettings` succeeds. -/
theorem updateGuildSettings_ok (st : Store) (guildId guildName : String)
    (sp : SettingsPatch) (actor : String) (now : Nat)
    (hw : st.writeFails = false) :
    ∃ r, updateGuildSettings st guildId guildName sp actor now = .ok r := by
  obtain ⟨c, st₁, h1, hw1⟩ := getOrCreateGuildConfig_ok st guildId guildName now hw
  simp only [updateGuildSettings, h1, saveGuildConfig, hw1,
             Bool.false_eq_true, if_false]
  exact ⟨_, rfl⟩

/-- Under a working file system, `updateGuildCommands` succeeds. -/
theorem updateGuildCommands_ok (st : Store) (guildId guildName : String)
    (cp : CommandsPatch) (actor : String) (now : Nat)
    (hw : st.writeFails = false) :
    ∃ r, updateGuildCommands st guildId guildName cp actor now = .ok r := by
  obtain ⟨c, st₁, h1, hw1⟩ := getOrCreateGuildConfig_ok st guildId guildName now hw
  simp only [updateGuildCommands, h1, saveGuildConfig, hw1,
             Bool.false_eq_true, if_false]
  exact ⟨_, rfl⟩

/-- When writes fail, `updateGuildSettings` throws. -/
theorem updateGuildSettings_fail (st : Store) (guildId guildName : String)
    (sp : SettingsPatch) (actor : String) (now : Nat)
    (hw : st.writeFails = true) :
    updateGuildSettings st guildId guildName sp actor now = .error () := by
  cases h : st.files guildId <;>
    simp [updateGuildSettings, getOrCreateGuildConfig, getGuildConfig, h,
          saveGuildConfig, hw]

/-- When writes fail, `updateGuildCommands` throws. -/
theorem updateGuildCommands_fail (st : Store) (guildId guildName : String)
    (cp : CommandsPatch) (actor : String) (now : Nat)
    (hw : st.writeFails = true) :
    updateGuildCommands st guildId guildName cp actor now = .error () := by
  cases h : st.files guildId <;>
    simp [updateGuildCommands, getOrCreateGuildConfig, getGuildConfig, h,
          saveGuildConfig, hw]

/-- Claim C3: each guild-scoped PUT endpoint checks the session first (absent
session yields 401 with the store untouched), then access verification (failed
verification yields 403 with the store untouched), then runs the store
operation (failure yields 500, success yields 200 with the operation
result); no state is mutated before verification completes. -/
theorem endpoint_state_machine (s : Session) (guildId : String)
    (userFetch : FetchResult (List DiscordGuild)) (tok : Option String)
    (botFetch : FetchResult (List BotGuild)) (sbody : Option SettingsPatch)
    (cbody : Option CommandsPatch) (sp : SettingsPatch) (cp : CommandsPatch)
    (st : Store) (now : Nat) (acc : AccessCheck) :
    (configPUT none guildId userFetch tok botFetch sbody st now =
      (.unauthorized, st)) ∧
    (commandsPUT none guildId userFetch tok botFetch cbody st now =
      (.unauthorized, st)) ∧
    (verifyAccess guildId userFetch tok botFetch = .ok acc →
      acc.authorized = false →
      configPUT (some s) guildId userFetch tok botFetch sbody st now =
        (.forbidden, st) ∧
      commandsPUT (some s) guildId userFetch tok botFetch cbody st now =
        (.forbidden, st)) ∧
    (verifyAccess guildId userFetch tok botFetch = .ok acc →
      acc.authorized = true → st.writeFails = true →
      configPUT (some s) guildId userFetch tok botFetch (some sp) st now =
        (.serverError, st) ∧
      commandsPUT (some s) guildId userFetch tok botFetch (some cp) st now =
        (.serverError, st)) ∧
    (verifyAccess guildId userFetch tok botFetch = .ok acc →
      acc.authorized = true → st.writeFails = false →
      (∃ c st', updateGuildSettings st guildId (acc.guildName.getD "") sp
          s.userId now = .ok (c, st') ∧
        configPUT (some s) guildId userFetch tok botFetch (some sp) st now =
          (.ok c, st')) ∧
      (∃ c st', updateGuildCommands st guildId (acc.guildName.getD "") cp
          s.userId now = .ok (c, st') ∧
        commandsPUT (some s) guildId userFetch tok botFetch (some cp) st now =
          (.ok c.commands, st'))) := by
  refine ⟨rfl, rfl, ?_, ?_, ?_⟩
  · intro hacc hauth
    exact ⟨by simp [configPUT, hacc, hauth], by simp [commandsPUT, hacc, hauth]⟩
  · intro hacc hauth hw
    constructor
    · simp [configPUT, hacc, hauth,
            updateGuildSettings_fail st guildId (acc.guildName.getD "") sp
              s.userId now hw]
    · simp [commandsPUT, hacc, hauth,
            updateGuildCommands_fail st guildId (acc.guildName.getD "") cp
              s.userId now hw]
  · intro hacc hauth hw
    constructor
    · obtain ⟨⟨c, st'⟩, hup⟩ := updateGuildSettings_ok st guildId
        (acc.guildName.getD "") sp s.userId now hw
      exact ⟨c, st', hup, by simp [configPUT, hacc, hauth, hup]⟩
    · obtain ⟨⟨c, st'⟩, hup⟩ := updateGuildCommands_ok st guildId
        (acc.guildName.getD "") cp s.userId now hw
      exact ⟨c, st', hup, by simp [commandsPUT, hacc, hauth, hup]⟩

/-- Claim C3 witness: concrete requests exercising the 401, 403, 500, and 200
paths of both PUT endpoints. -/
theorem endpoint_state_machine_witness :
    (configPUT none "g1" (.ok []) (some "bt") (.ok [{ id := "g1" }]) (some {})
        ⟨fun _ => .missing, false⟩ 0 =
      (.unauthorized, ⟨fun _ => .missing, false⟩)) ∧
    (commandsPUT none "g1" (.ok []) (some "bt") (.ok [{ id := "g1" }]) (some {})
        ⟨fun _ => .missing, false⟩ 0 =
      (.unauthorized, ⟨fun _ => .missing, false⟩)) ∧
    (configPUT (some { accessToken := "tok", userId := "u" }) "g1" (.ok [])
        (some "bt") (.ok [{ id := "g1" }]) (some {})
        ⟨fun _ => .missing, false⟩ 0 =
      (.forbidden, ⟨fun _ => .missing, false⟩) ∧
      commandsPUT (some { accessToken := "tok", userId := "u" }) "g1" (.ok [])
        (some "bt") (.ok [{ id := "g1" }]) (some {})
        ⟨fun _ => .missing, false⟩ 0 =
      (.forbidden, ⟨fun _ => .missing, false⟩)) ∧
    (configPUT (some { accessToken := "tok", userId := "u" }) "g1"
        (.ok [{ id := "g1", name := "A", icon := none, owner := true,
                permissions := 0 }])
        (some "bt") (.ok [{ id := "g1" }]) (some {})
        ⟨fun _ => .missing, true⟩ 0 =
      (.serverError, ⟨fun _ => .missing, true⟩) ∧
      commandsPUT (some { accessToken := "tok", userId := "u" }) "g1"
        (.ok [{ id := "g1", name := "A", icon := none, owner := true,
                permissions := 0 }])
        (some "bt") (.ok [{ id := "g1" }]) (some {})
        ⟨fun _ => .missing, true⟩ 0 =
      (.serverError, ⟨fun _ => .missing, true⟩)) ∧
    ((∃ c st', updateGuildSettings ⟨fun _ => .missing, false⟩ "g1" "A" {} "u" 0 =
        .ok (c, st') ∧
      configPUT (some { accessToken := "tok", userId := "u" }) "g1"
        (.ok [{ id := "g1", name := "A", icon := none, owner := true,
                permissions := 0 }])
        (some "bt") (.ok [{ id := "g1" }]) (some {})
        ⟨fun _ => .missing, false⟩ 0 = (.ok c, st')) ∧
     (∃ c st', updateGuildCommands ⟨fun _ => .missing, false⟩ "g1" "A" {} "u" 0 =
        .ok (c, st') ∧
      commandsPUT (some { accessToken := "tok", userId := "u" }) "g1"
        (.ok [{ id := "g1", name := "A", icon := none, owner := true,
                permissions := 0 }])
        (some "bt") (.ok [{ id := "g1" }]) (some {})
        ⟨fun _ => .missing, false⟩ 0 = (.ok c.commands, st'))) :=
  ⟨(endpoint_state_machine { accessToken := "tok", userId := "u" } "g1" (.ok [])
      (some "bt") (.ok [{ id := "g1" }]) (some {}) (some {}) {} {}
      ⟨fun _ => .missing, false⟩ 0
      { authorized := false, guildName := none }).1,
   (endpoint_state_machine { accessToken := "tok", userId := "u" } "g1" (.ok [])
      (some "bt") (.ok [{ id := "g1" }]) (some {}) (some {}) {} {}
      ⟨fun _ => .missing, false⟩ 0
      { authorized := false, guildName := none }).2.1,
   (endpoint_state_machine { accessToken := "tok", userId := "u" } "g1" (.ok [])
      (some "bt") (.ok [{ id := "g1" }]) (some {}) (some {}) {} {}
      ⟨fun _ => .missing, false⟩ 0
      { authorized := false, guildName := none }).2.2.1 rfl rfl,
   (endpoint_state_machine { accessToken := "tok", userId := "u" } "g1"
      (.ok [{ id := "g1", name := "A", icon := none, owner := true,
              permissions := 0 }])
      (some "bt") (.ok [{ id := "g1" }]) (some {}) (some {}) {} {}
      ⟨fun _ => .missing, true⟩ 0
      { authorized := true, guildName := some "A" }).2.2.2.1 rfl rfl rfl,
   (endpoint_state_machine { accessToken := "tok", userId := "u" } "g1"
      (.ok [{ id := "g1", name := "A", icon := none, owner := true,
              permissions := 0 }])
      (some "bt") (.ok [{ id := "g1" }]) (some {}) (some {}) {} {}
      ⟨fun _ => .missing, false⟩ 0
      { authorized := true, guildName := some "A" }).2.2.2.2 rfl rfl rfl⟩
